import Mathlib

/-!
Verification of the Finding Normalization & Aggregation Pipeline of AegisPHP.

The repository contains two variants of the pipeline:
  * `src/phalanx.py`  (defensive variant: try/except around each adapter loop,
    `str(...)[:N]` truncation, `int(...)` line coercion, `by_severity` counts)
  * `src/aegisphp.py` (loose variant: no exception handling, no truncation,
    raw values copied through, summary with `total_findings` and `by_tool` only)

Both are shallowly embedded below.  JSON values (the payloads handed over by
the scan runner after `json.loads`) are modelled by `JVal`; Python runtime
errors raised while normalizing are modelled by `Except PyErr`.  Numeric JSON
literals are modelled as integers (the fields the pipeline touches are line
numbers); Python `int(...)` digit-group underscores are not modelled.
-/

/-- A parsed JSON value, as produced by `json.loads`. -/
inductive JVal where
  | jnull : JVal
  | jbool : Bool → JVal
  | jint : Int → JVal
  | jstr : String → JVal
  | jlist : List JVal → JVal
  | jobj : List (String × JVal) → JVal

/-- The Python exceptions the pipeline code can raise. -/
inductive PyErr where
  | attributeError : PyErr
  | typeError : PyErr
  | valueError : PyErr
deriving DecidableEq

/-- Key lookup in an association list (a Python dict in insertion order). -/
def lookupKV {α : Type} : List (String × α) → String → Option α
  | [], _ => none
  | (a, x) :: rest, k => if k = a then some x else lookupKV rest k

/-- Key lookup in a JSON object; `none` for a missing key or a non-object. -/
def jLookup : JVal → String → Option JVal
  | .jobj kvs, k => lookupKV kvs k
  | _, _ => none

/-- Python `v.get(k, d)`: defaulting dict lookup; `AttributeError` when the
receiver is not a dict. -/
def pyGet : JVal → String → JVal → Except PyErr JVal
  | .jobj kvs, k, d => .ok ((lookupKV kvs k).getD d)
  | _, _, _ => .error .attributeError

/-- Python `s.lower()` on a string (ASCII case folding; the severity
vocabulary the pipeline compares against is ASCII). -/
def pyLowerStr (s : String) : String := String.mk (s.data.map Char.toLower)

/-- Python `v.lower()`: `AttributeError` when the receiver is not a string. -/
def pyLower : JVal → Except PyErr String
  | .jstr s => .ok (pyLowerStr s)
  | _ => .error .attributeError

/-- Python `for x in v`: lists yield their elements, strings their characters,
dicts their keys; other values raise `TypeError`. -/
def pyIter : JVal → Except PyErr (List JVal)
  | .jlist xs => .ok xs
  | .jstr s => .ok (s.data.map (fun c => JVal.jstr (String.mk [c])))
  | .jobj kvs => .ok (kvs.map (fun kv => JVal.jstr kv.1))
  | _ => .error .typeError

/-- The whitespace characters stripped by Python `str.strip()`. -/
def isPyWs (c : Char) : Bool :=
  c = ' ' || c = '\t' || c = '\n' || c = '\r' || c = '\x0b' || c = '\x0c'

/-- Python `s.strip()` on a string value. -/
def pyStrip (s : String) : String :=
  String.mk (((s.data.dropWhile isPyWs).reverse.dropWhile isPyWs).reverse)

/-- Python `v.strip()` on a raw value: `AttributeError` off strings. -/
def pyStripV : JVal → Except PyErr String
  | .jstr s => .ok (pyStrip s)
  | _ => .error .attributeError

/-- Python slice `s[:n]` (characters are Unicode code points in both). -/
def pySlice (s : String) (n : Nat) : String := String.mk (s.data.take n)

mutual

/-- Python `repr(v)` for a JSON value (string escaping inside compound values
is not modelled; the pipeline only applies `str` to scalar fields). -/
def pyRepr : JVal → String
  | .jnull => "None"
  | .jbool true => "True"
  | .jbool false => "False"
  | .jint n => toString n
  | .jstr s => "\x27" ++ s ++ "\x27"
  | .jlist xs => "[" ++ pyReprItems xs ++ "]"
  | .jobj kvs => "\x7b" ++ pyReprPairs kvs ++ "\x7d"

/-- Comma-separated reprs of the items of a list. -/
def pyReprItems : List JVal → String
  | [] => ""
  | [x] => pyRepr x
  | x :: xs => pyRepr x ++ ", " ++ pyReprItems xs

/-- Comma-separated reprs of the pairs of a dict. -/
def pyReprPairs : List (String × JVal) → String
  | [] => ""
  | [(k, v)] => "\x27" ++ k ++ "\x27: " ++ pyRepr v
  | (k, v) :: kvs => "\x27" ++ k ++ "\x27: " ++ pyRepr v ++ ", " ++ pyReprPairs kvs

end

/-- Python `str(v)`: identity on strings, `repr` otherwise; never raises. -/
def pyStr (v : JVal) : String :=
  match v with
  | .jstr s => s
  | v => pyRepr v

/-- Numeric value of a list of decimal digits. -/
def digitsVal (ds : List Char) : Nat :=
  ds.foldl (fun a c => a * 10 + (c.toNat - 48)) 0

/-- Python `int(s)` on a string: strip whitespace, optional sign, decimal
digits; `ValueError` otherwise. -/
def pyIntOfString (s : String) : Except PyErr Int :=
  match (pyStrip s).data with
  | [] => .error .valueError
  | c :: rest =>
    if c = '-' then
      if !rest.isEmpty && rest.all Char.isDigit then .ok (-(digitsVal rest : Int))
      else .error .valueError
    else if c = '+' then
      if !rest.isEmpty && rest.all Char.isDigit then .ok ((digitsVal rest : Int))
      else .error .valueError
    else
      if (c :: rest).all Char.isDigit then .ok ((digitsVal (c :: rest) : Int))
      else .error .valueError

/-- Python `int(v)`: integers pass through, booleans become 0/1, strings are
parsed (`ValueError` on failure), everything else raises `TypeError`. -/
def pyInt : JVal → Except PyErr Int
  | .jint n => .ok n
  | .jbool b => .ok (if b then 1 else 0)
  | .jstr s => pyIntOfString s
  | _ => .error .typeError

/-- Python truthiness, as used by `a or b`. -/
def pyTruthy : JVal → Bool
  | .jnull => false
  | .jbool b => b
  | .jint n => n != 0
  | .jstr s => !s.isEmpty
  | .jlist xs => !xs.isEmpty
  | .jobj kvs => !kvs.isEmpty

/-- Python `a or b`: the first operand when truthy, otherwise the second. -/
def pyOr (a b : JVal) : JVal := if pyTruthy a then a else b

/-- `SEV_MAP`, identical in `phalanx.py` and `aegisphp.py`. -/
def SEV_MAP : List (String × String) :=
  [("info", "low"), ("notice", "low"), ("warning", "medium"),
   ("error", "high"), ("critical", "critical")]

/-- `SEV_MAP.get(sev, "medium")`. -/
def sevMapGet (sev : String) : String := (lookupKV SEV_MAP sev).getD "medium"

/-- The severity normalizer: lower-case, then look up in `SEV_MAP` with
default `"medium"` (the composition both files apply to raw severities). -/
def normalize_severity (raw : String) : String := sevMapGet (pyLowerStr raw)

/-- The unified finding record built by the `phalanx.py` adapters (the dict
appended on each loop iteration; every key is always present). -/
structure Finding where
  tool : String
  title : String
  file : String
  line : Int
  severity : String
  code : String
  metadata : List (String × String)

/-- One iteration of the `phalanx.py` `normalize_psalm` loop body. -/
def psalmIssue (issue : JVal) : Except PyErr Finding := do
  let sevV ← pyGet issue "severity" (.jstr "")
  let sev ← pyLower sevV
  let msgV ← pyGet issue "message" (.jstr "")
  let fileV ← pyGet issue "file_name" (.jstr "")
  let lineV ← pyGet issue "line_from" (.jint 0)
  let line ← pyInt lineV
  let snipV ← pyGet issue "snippet" (.jstr "")
  let typeV ← pyGet issue "type" (.jstr "")
  let linkV ← pyGet issue "link" (.jstr "")
  .ok { tool := "psalm",
        title := pySlice (pyStr msgV) 500,
        file := pySlice (pyStr fileV) 1000,
        line := line,
        severity := sevMapGet sev,
        code := pySlice (pyStrip (pyStr snipV)) 1000,
        metadata := [("type", pySlice (pyStr typeV) 100),
                     ("link", pySlice (pyStr linkV) 500)] }

/-- One iteration of the `phalanx.py` `normalize_parse` loop body. -/
def parseIssue (issue : JVal) : Except PyErr Finding := do
  let sevV ← pyGet issue "severity" (.jstr "warning")
  let sev ← pyLower sevV
  let titleV1 ← pyGet issue "title" .jnull
  let titleV2 ← pyGet issue "message" (.jstr "")
  let fileV ← pyGet issue "file" (.jstr "")
  let lineV ← pyGet issue "line" (.jint 0)
  let line ← pyInt lineV
  let codeV ← pyGet issue "code" (.jstr "")
  let ruleV ← pyGet issue "rule" (.jstr "")
  .ok { tool := "parse",
        title := pySlice (pyStr (pyOr titleV1 titleV2)) 500,
        file := pySlice (pyStr fileV) 1000,
        line := line,
        severity := sevMapGet sev,
        code := pySlice (pyStr codeV) 1000,
        metadata := [("rule", pySlice (pyStr ruleV) 100)] }

/-- One iteration of the `phalanx.py` `normalize_progpilot` loop body. -/
def progIssue (issue : JVal) : Except PyErr Finding := do
  let sevV ← pyGet issue "severity" (.jstr "medium")
  let sev ← pyLower sevV
  let titleV1 ← pyGet issue "description" .jnull
  let titleV2 ← pyGet issue "message" (.jstr "")
  let fileV ← pyGet issue "file" (.jstr "")
  let lineV ← pyGet issue "line" (.jint 0)
  let line ← pyInt lineV
  let codeV ← pyGet issue "code" (.jstr "")
  let ruleV ← pyGet issue "rule_name" (.jstr "")
  .ok { tool := "progpilot",
        title := pySlice (pyStr (pyOr titleV1 titleV2)) 500,
        file := pySlice (pyStr fileV) 1000,
        line := line,
        severity := sevMapGet sev,
        code := pySlice (pyStr codeV) 1000,
        metadata := [("rule", pySlice (pyStr ruleV) 100)] }

/-- The `for issue in data.get(key, [])` loop of a `phalanx.py` adapter under
its `try`: the first exception ends the loop, keeping the findings appended
so far. -/
def runLoop (step : JVal → Except PyErr Finding) : List JVal → List Finding
  | [] => []
  | i :: rest =>
    match step i with
    | .ok f => f :: runLoop step rest
    | .error _ => []

/-- `data.get(key, [])` followed by starting the `for` loop over the result. -/
def getIssueList (key : String) (data : JVal) : Except PyErr (List JVal) := do
  let v ← pyGet data key (.jlist [])
  pyIter v

/-- A complete `phalanx.py` adapter: loop under `try`, returning the findings
accumulated when an exception is caught. -/
def phalanxAdapter (key : String) (step : JVal → Except PyErr Finding)
    (data : JVal) : List Finding :=
  match getIssueList key data with
  | .error _ => []
  | .ok issues => runLoop step issues

/-- `phalanx.py` `normalize_psalm`. -/
def normalize_psalm (data : JVal) : List Finding :=
  phalanxAdapter "issues" psalmIssue data

/-- `phalanx.py` `normalize_parse`. -/
def normalize_parse (data : JVal) : List Finding :=
  phalanxAdapter "findings" parseIssue data

/-- `phalanx.py` `normalize_progpilot`. -/
def normalize_progpilot (data : JVal) : List Finding :=
  phalanxAdapter "results" progIssue data

/-- `d[k] = d.get(k, 0) + 1` on a Python dict (insertion-ordered: a new key
is appended at the end).  Also the net effect of `setdefault` + `+= 1`. -/
def bump : List (String × Nat) → String → List (String × Nat)
  | [], k => [(k, 1)]
  | (a, n) :: rest, k =>
    if a = k then (a, n + 1) :: rest else (a, n) :: bump rest k

/-- The initial `by_severity` dict of `phalanx.py`. -/
def sevInit : List (String × Nat) :=
  [("low", 0), ("medium", 0), ("high", 0), ("critical", 0)]

/-- The `phalanx.py` summary dict (the two count tables are insertion-ordered
Python dicts, modelled as association lists). -/
structure Summary where
  total_findings : Nat
  by_tool : List (String × Nat)
  by_severity : List (String × Nat)
  scan_timestamp : String
  phalanx_version : String

/-- Building the `phalanx.py` summary: the dict literal plus the counting
loop over all findings (`finding.get("tool", "unknown")` and
`finding.get("severity", "medium")` always find their keys, since every
appended finding dict carries them). -/
def buildSummary (ts : String) (fs : List Finding) : Summary :=
  { total_findings := fs.length,
    by_tool := fs.foldl (fun m f => bump m f.tool) [],
    by_severity := fs.foldl (fun m f => bump m f.severity) sevInit,
    scan_timestamp := ts,
    phalanx_version := "0.1.0" }

/-- The `phalanx.py` report value. -/
structure Report where
  summary : Summary
  findings : List Finding

/-- The normalization and aggregation steps of `phalanx.py` `main` (lines
326-350), applied to the three parsed payloads; `ts` is the wall-clock
timestamp string. -/
def phalanx_pipeline (ts : String) (psalmJ parseJ progJ : JVal) : Report :=
  let fs := normalize_psalm psalmJ ++ normalize_parse parseJ
              ++ normalize_progpilot progJ
  { summary := buildSummary ts fs, findings := fs }

/-- The finding dict built by the `aegisphp.py` adapters: raw values are
copied through uncoerced, so most fields are arbitrary JSON values. -/
structure AFinding where
  tool : String
  title : JVal
  file : JVal
  line : JVal
  severity : String
  code : JVal
  metadata : List (String × JVal)

/-- One iteration of the `aegisphp.py` `normalize_psalm` loop body. -/
def aPsalmIssue (issue : JVal) : Except PyErr AFinding := do
  let sevV ← pyGet issue "severity" (.jstr "")
  let sev ← pyLower sevV
  let titleV ← pyGet issue "message" .jnull
  let fileV ← pyGet issue "file_name" .jnull
  let lineV ← pyGet issue "line_from" .jnull
  let snipV ← pyGet issue "snippet" (.jstr "")
  let snip ← pyStripV snipV
  let typeV ← pyGet issue "type" .jnull
  let linkV ← pyGet issue "link" .jnull
  .ok { tool := "psalm", title := titleV, file := fileV, line := lineV,
        severity := sevMapGet sev, code := .jstr snip,
        metadata := [("type", typeV), ("link", linkV)] }

/-- One iteration of the `aegisphp.py` `normalize_parse` loop body. -/
def aParseIssue (issue : JVal) : Except PyErr AFinding := do
  let sevV ← pyGet issue "severity" (.jstr "warning")
  let sev ← pyLower sevV
  let titleV1 ← pyGet issue "title" .jnull
  let titleV2 ← pyGet issue "message" .jnull
  let fileV ← pyGet issue "file" .jnull
  let lineV ← pyGet issue "line" .jnull
  let codeV ← pyGet issue "code" (.jstr "")
  let ruleV ← pyGet issue "rule" .jnull
  .ok { tool := "parse", title := pyOr titleV1 titleV2, file := fileV,
        line := lineV, severity := sevMapGet sev, code := codeV,
        metadata := [("rule", ruleV)] }

/-- One iteration of the `aegisphp.py` `normalize_progpilot` loop body. -/
def aProgIssue (issue : JVal) : Except PyErr AFinding := do
  let sevV ← pyGet issue "severity" (.jstr "medium")
  let sev ← pyLower sevV
  let titleV1 ← pyGet issue "description" .jnull
  let titleV2 ← pyGet issue "message" .jnull
  let fileV ← pyGet issue "file" .jnull
  let lineV ← pyGet issue "line" .jnull
  let codeV ← pyGet issue "code" (.jstr "")
  let ruleV ← pyGet issue "rule_name" .jnull
  .ok { tool := "progpilot", title := pyOr titleV1 titleV2, file := fileV,
        line := lineV, severity := sevMapGet sev, code := codeV,
        metadata := [("rule", ruleV)] }

/-- The `for issue in data.get(key, [])` loop of an `aegisphp.py` adapter:
no `try`, so an exception on any iteration propagates (the findings appended
before it are lost with the local list). -/
def aLoop (step : JVal → Except PyErr AFinding) :
    List JVal → Except PyErr (List AFinding)
  | [] => .ok []
  | i :: rest => do
    let f ← step i
    let fs ← aLoop step rest
    .ok (f :: fs)

/-- A complete `aegisphp.py` adapter: no `try`, so the first exception
propagates to the caller. -/
def aegisAdapter (key : String) (step : JVal → Except PyErr AFinding)
    (data : JVal) : Except PyErr (List AFinding) := do
  let issues ← getIssueList key data
  aLoop step issues

/-- `aegisphp.py` `normalize_psalm`. -/
def a_normalize_psalm (data : JVal) : Except PyErr (List AFinding) :=
  aegisAdapter "issues" aPsalmIssue data

/-- `aegisphp.py` `normalize_parse`. -/
def a_normalize_parse (data : JVal) : Except PyErr (List AFinding) :=
  aegisAdapter "findings" aParseIssue data

/-- `aegisphp.py` `normalize_progpilot`. -/
def a_normalize_progpilot (data : JVal) : Except PyErr (List AFinding) :=
  aegisAdapter "results" aProgIssue data

/-- The `aegisphp.py` summary dict (lines 147-150): only `total_findings`
and `by_tool`; there is no `by_severity` table in this variant. -/
structure ASummary where
  total_findings : Nat
  by_tool : List (String × Nat)

/-- The `aegisphp.py` report value. -/
structure AReport where
  summary : ASummary
  findings : List AFinding

/-- Building the `aegisphp.py` summary: dict literal plus the
`setdefault`/increment loop. -/
def a_buildSummary (fs : List AFinding) : ASummary :=
  { total_findings := fs.length,
    by_tool := fs.foldl (fun m f => bump m f.tool) [] }

/-- The normalization and aggregation steps of `aegisphp.py` `main` (lines
140-152); an exception in any adapter aborts the whole run. -/
def aegisphp_pipeline (psalmJ parseJ progJ : JVal) : Except PyErr AReport := do
  let f1 ← a_normalize_psalm psalmJ
  let f2 ← a_normalize_parse parseJ
  let f3 ← a_normalize_progpilot progJ
  let fs := f1 ++ f2 ++ f3
  .ok { summary := a_buildSummary fs, findings := fs }

/-- The JSON object `json.dump` serializes for the `aegisphp.py` summary:
exactly the keys the summary dict holds. -/
def ASummary.toJson (s : ASummary) : JVal :=
  .jobj [("total_findings", .jint (s.total_findings : Int)),
         ("by_tool", .jobj (s.by_tool.map (fun kv => (kv.1, JVal.jint (kv.2 : Int)))))]

/-- Sum of the counts of one of the summary count tables. -/
def sumVals (m : List (String × Nat)) : Nat := (m.map Prod.snd).sum

/-- Number of occurrences of a key among the tool (or severity) tags of the
findings, used to state the counting invariants. -/
def countKey (t : String) : List String → Nat
  | [] => 0
  | k :: rest => (if k = t then 1 else 0) + countKey t rest

/-! ## Helper lemmas -/

theorem lookupKV_bump (m : List (String × Nat)) (k t : String) :
    lookupKV (bump m k) t =
      if t = k then some ((lookupKV m t).getD 0 + 1) else lookupKV m t := by
  induction m with
  | nil =>
    by_cases h : t = k <;> simp [bump, lookupKV, h]
  | cons p rest ih =>
    obtain ⟨a, n⟩ := p
    by_cases hak : a = k
    · subst hak
      by_cases hta : t = a <;> simp [bump, lookupKV, hta]
    · by_cases hta : t = a
      · subst hta
        simp [bump, lookupKV, hak]
      · simp [bump, lookupKV, hak, hta, ih]

theorem lookupKV_foldl_bump (keys : List String) :
    ∀ (acc : List (String × Nat)) (t : String),
      lookupKV (keys.foldl bump acc) t =
        match lookupKV acc t with
        | some m => some (m + countKey t keys)
        | none => if countKey t keys = 0 then none else some (countKey t keys) := by
  induction keys with
  | nil =>
    intro acc t
    cases h : lookupKV acc t <;> simp [List.foldl, countKey, h]
  | cons k keys ih =>
    intro acc t
    rw [List.foldl_cons, ih (bump acc k) t, lookupKV_bump]
    by_cases htk : t = k
    · subst htk
      cases h : lookupKV acc t <;> (simp [h, countKey]; try omega)
    · have hkt : ¬ k = t := fun h => htk h.symm
      cases h : lookupKV acc t <;> simp [h, htk, countKey, hkt]

theorem sumVals_bump (m : List (String × Nat)) (k : String) :
    sumVals (bump m k) = sumVals m + 1 := by
  induction m with
  | nil => simp [bump, sumVals]
  | cons p rest ih =>
    obtain ⟨a, n⟩ := p
    simp [sumVals] at ih
    by_cases h : a = k <;> simp [bump, sumVals, h] <;> omega

theorem sumVals_foldl_bump (keys : List String) :
    ∀ acc : List (String × Nat),
      sumVals (keys.foldl bump acc) = sumVals acc + keys.length := by
  induction keys with
  | nil => intro acc; simp
  | cons k keys ih =>
    intro acc
    rw [List.foldl_cons, ih (bump acc k), sumVals_bump]
    simp; omega

theorem runLoop_takeWhile (step : JVal → Except PyErr Finding) (issues : List JVal) :
    runLoop step issues =
      (issues.takeWhile (fun i => ((step i).toOption).isSome)).filterMap
        (fun i => (step i).toOption) := by
  induction issues with
  | nil => simp [runLoop]
  | cons i rest ih =>
    cases h : step i with
    | ok f =>
      simp [runLoop, h, List.takeWhile_cons, Except.toOption, List.filterMap_cons, ih]
    | error e =>
      simp [runLoop, h, List.takeWhile_cons, Except.toOption]

theorem runLoop_all_ok (step : JVal → Except PyErr Finding) (issues : List JVal)
    (h : ∀ i ∈ issues, ((step i).toOption).isSome) :
    runLoop step issues = issues.filterMap (fun i => (step i).toOption) := by
  rw [runLoop_takeWhile, List.takeWhile_eq_self_iff.mpr]
  intro i hi
  exact h i hi

theorem runLoop_append_error (step : JVal → Except PyErr Finding)
    (gs : List JVal) (b : JVal) (r : List JVal)
    (hg : ∀ i ∈ gs, ((step i).toOption).isSome)
    (hb : (step b).toOption = none) :
    runLoop step (gs ++ b :: r) = gs.filterMap (fun i => (step i).toOption) := by
  induction gs with
  | nil =>
    cases h : step b with
    | ok f => rw [h] at hb; simp [Except.toOption] at hb
    | error e => simp [runLoop, h]
  | cons g gs ih =>
    have hgok : ((step g).toOption).isSome := hg g (by simp)
    cases h : step g with
    | ok f =>
      have hrest := ih (fun i hi => hg i (by simp [hi]))
      simp only [List.cons_append, runLoop, h, List.filterMap_cons, Except.toOption]
      rw [List.append_eq] at *
      rw [hrest]
      rfl
    | error e => rw [h] at hgok; simp [Except.toOption] at hgok

theorem aLoop_error_of_bad_mem (step : JVal → Except PyErr AFinding)
    (gs : List JVal) (b : JVal) (r : List JVal)
    (hb : (step b).toOption = none) :
    ((aLoop step (gs ++ b :: r))).toOption = none := by
  induction gs with
  | nil =>
    cases h : step b with
    | ok f => rw [h] at hb; simp [Except.toOption] at hb
    | error e => simp [aLoop, h, Except.toOption, Bind.bind, Except.bind]
  | cons g gs ih =>
    cases h : step g with
    | ok f =>
      simp only [List.cons_append, aLoop, h]
      cases h2 : aLoop step (gs ++ b :: r) with
      | ok l => rw [h2] at ih; simp [Except.toOption] at ih
      | error e => rfl
    | error e => simp [aLoop, h, Except.toOption, Bind.bind, Except.bind]

theorem aLoop_all_ok (step : JVal → Except PyErr AFinding) (issues : List JVal)
    (h : ∀ i ∈ issues, ((step i).toOption).isSome) :
    aLoop step issues = .ok (issues.filterMap (fun i => (step i).toOption)) := by
  induction issues with
  | nil => simp [aLoop]
  | cons i rest ih =>
    have hok : ((step i).toOption).isSome := h i (by simp)
    cases hi : step i with
    | ok f =>
      have hrest := ih (fun j hj => h j (by simp [hj]))
      have hopt : (step i).toOption = some f := by rw [hi]; rfl
      simp only [aLoop, hi, hrest, List.filterMap_cons, hopt]
      rfl
    | error e => rw [hi] at hok; simp [Except.toOption] at hok

theorem psalmIssue_jobj (kvs : List (String × JVal)) :
    psalmIssue (.jobj kvs) =
      (pyLower ((lookupKV kvs "severity").getD (.jstr ""))).bind (fun sev =>
        (pyInt ((lookupKV kvs "line_from").getD (.jint 0))).bind (fun line =>
          .ok { tool := "psalm",
                title := pySlice (pyStr ((lookupKV kvs "message").getD (.jstr ""))) 500,
                file := pySlice (pyStr ((lookupKV kvs "file_name").getD (.jstr ""))) 1000,
                line := line,
                severity := sevMapGet sev,
                code := pySlice (pyStrip (pyStr ((lookupKV kvs "snippet").getD (.jstr "")))) 1000,
                metadata := [("type", pySlice (pyStr ((lookupKV kvs "type").getD (.jstr ""))) 100),
                             ("link", pySlice (pyStr ((lookupKV kvs "link").getD (.jstr ""))) 500)] })) := rfl

theorem parseIssue_jobj (kvs : List (String × JVal)) :
    parseIssue (.jobj kvs) =
      (pyLower ((lookupKV kvs "severity").getD (.jstr "warning"))).bind (fun sev =>
        (pyInt ((lookupKV kvs "line").getD (.jint 0))).bind (fun line =>
          .ok { tool := "parse",
                title := pySlice (pyStr (pyOr ((lookupKV kvs "title").getD .jnull)
                  ((lookupKV kvs "message").getD (.jstr "")))) 500,
                file := pySlice (pyStr ((lookupKV kvs "file").getD (.jstr ""))) 1000,
                line := line,
                severity := sevMapGet sev,
                code := pySlice (pyStr ((lookupKV kvs "code").getD (.jstr ""))) 1000,
                metadata := [("rule", pySlice (pyStr ((lookupKV kvs "rule").getD (.jstr ""))) 100)] })) := rfl

theorem progIssue_jobj (kvs : List (String × JVal)) :
    progIssue (.jobj kvs) =
      (pyLower ((lookupKV kvs "severity").getD (.jstr "medium"))).bind (fun sev =>
        (pyInt ((lookupKV kvs "line").getD (.jint 0))).bind (fun line =>
          .ok { tool := "progpilot",
                title := pySlice (pyStr (pyOr ((lookupKV kvs "description").getD .jnull)
                  ((lookupKV kvs "message").getD (.jstr "")))) 500,
                file := pySlice (pyStr ((lookupKV kvs "file").getD (.jstr ""))) 1000,
                line := line,
                severity := sevMapGet sev,
                code := pySlice (pyStr ((lookupKV kvs "code").getD (.jstr ""))) 1000,
                metadata := [("rule", pySlice (pyStr ((lookupKV kvs "rule_name").getD (.jstr ""))) 100)] })) := rfl

theorem aPsalmIssue_jobj (kvs : List (String × JVal)) :
    aPsalmIssue (.jobj kvs) =
      (pyLower ((lookupKV kvs "severity").getD (.jstr ""))).bind (fun sev =>
        (pyStripV ((lookupKV kvs "snippet").getD (.jstr ""))).bind (fun snip =>
          .ok { tool := "psalm",
                title := (lookupKV kvs "message").getD .jnull,
                file := (lookupKV kvs "file_name").getD .jnull,
                line := (lookupKV kvs "line_from").getD .jnull,
                severity := sevMapGet sev,
                code := .jstr snip,
                metadata := [("type", (lookupKV kvs "type").getD .jnull),
                             ("link", (lookupKV kvs "link").getD .jnull)] })) := rfl

theorem aParseIssue_jobj (kvs : List (String × JVal)) :
    aParseIssue (.jobj kvs) =
      (pyLower ((lookupKV kvs "severity").getD (.jstr "warning"))).map (fun sev =>
        { tool := "parse",
          title := pyOr ((lookupKV kvs "title").getD .jnull)
            ((lookupKV kvs "message").getD .jnull),
          file := (lookupKV kvs "file").getD .jnull,
          line := (lookupKV kvs "line").getD .jnull,
          severity := sevMapGet sev,
          code := (lookupKV kvs "code").getD (.jstr ""),
          metadata := [("rule", (lookupKV kvs "rule").getD .jnull)] }) := by
  cases h : pyLower ((lookupKV kvs "severity").getD (.jstr "warning")) with
  | ok sev => simp [aParseIssue, pyGet, h, Except.map, Bind.bind, Except.bind]
  | error e => simp [aParseIssue, pyGet, h, Except.map, Bind.bind, Except.bind]

theorem aProgIssue_jobj (kvs : List (String × JVal)) :
    aProgIssue (.jobj kvs) =
      (pyLower ((lookupKV kvs "severity").getD (.jstr "medium"))).map (fun sev =>
        { tool := "progpilot",
          title := pyOr ((lookupKV kvs "description").getD .jnull)
            ((lookupKV kvs "message").getD .jnull),
          file := (lookupKV kvs "file").getD .jnull,
          line := (lookupKV kvs "line").getD .jnull,
          severity := sevMapGet sev,
          code := (lookupKV kvs "code").getD (.jstr ""),
          metadata := [("rule", (lookupKV kvs "rule_name").getD .jnull)] }) := by
  cases h : pyLower ((lookupKV kvs "severity").getD (.jstr "medium")) with
  | ok sev => simp [aProgIssue, pyGet, h, Except.map, Bind.bind, Except.bind]
  | error e => simp [aProgIssue, pyGet, h, Except.map, Bind.bind, Except.bind]

theorem normalize_psalm_list (issues : List JVal) :
    normalize_psalm (.jobj [("issues", .jlist issues)]) = runLoop psalmIssue issues := rfl

theorem normalize_parse_list (issues : List JVal) :
    normalize_parse (.jobj [("findings", .jlist issues)]) = runLoop parseIssue issues := rfl

theorem normalize_progpilot_list (issues : List JVal) :
    normalize_progpilot (.jobj [("results", .jlist issues)]) = runLoop progIssue issues := rfl

theorem a_normalize_psalm_list (issues : List JVal) :
    a_normalize_psalm (.jobj [("issues", .jlist issues)]) = aLoop aPsalmIssue issues := rfl

/-! ## Claims -/

/-- Claim C2 (confirmed): severity normalization is a total deterministic
function of the raw severity string: the input is lower-cased, then mapped by
the fixed table info→low, notice→low, warning→medium, error→high,
critical→critical; every other string (including the empty string) maps to
medium and the function never fails; the psalm adapter applies exactly this
function to a string-valued raw severity. -/
theorem C2_severity_normalizer (s : String) :
    (pyLowerStr s = "info" → normalize_severity s = "low") ∧
    (pyLowerStr s = "notice" → normalize_severity s = "low") ∧
    (pyLowerStr s = "warning" → normalize_severity s = "medium") ∧
    (pyLowerStr s = "error" → normalize_severity s = "high") ∧
    (pyLowerStr s = "critical" → normalize_severity s = "critical") ∧
    (pyLowerStr s ∉ (["info", "notice", "warning", "error", "critical"] : List String) →
      normalize_severity s = "medium") ∧
    normalize_severity "" = "medium" ∧
    (∀ kvs f, lookupKV kvs "severity" = some (.jstr s) →
      psalmIssue (.jobj kvs) = .ok f → f.severity = normalize_severity s) := by
  refine ⟨?_, ?_, ?_, ?_, ?_, ?_, rfl, ?_⟩
  · intro h; rw [normalize_severity, h]; rfl
  · intro h; rw [normalize_severity, h]; rfl
  · intro h; rw [normalize_severity, h]; rfl
  · intro h; rw [normalize_severity, h]; rfl
  · intro h; rw [normalize_severity, h]; rfl
  · intro h
    simp only [List.mem_cons, List.not_mem_nil, or_false, not_or] at h
    obtain ⟨h1, h2, h3, h4, h5⟩ := h
    rw [normalize_severity, sevMapGet, SEV_MAP]
    simp [lookupKV, h1, h2, h3, h4, h5]
  · intro kvs f h hf
    rw [psalmIssue_jobj, h] at hf
    simp only [Option.getD_some, pyLower] at hf
    rcases hli : pyInt ((lookupKV kvs "line_from").getD (.jint 0)) with e | n
    · rw [hli] at hf; simp [Except.bind] at hf
    · rw [hli] at hf
      simp only [Except.bind, Except.ok.injEq] at hf
      rw [← hf]
      rfl

/-- Witness for claim C2 at concrete severities. -/
theorem C2_severity_normalizer_witness :
    normalize_severity "ERROR" = "high" ∧ normalize_severity "Info" = "low" ∧
    normalize_severity "wheee" = "medium" :=
  ⟨(C2_severity_normalizer "ERROR").2.2.2.1 rfl,
   (C2_severity_normalizer "Info").1 rfl,
   (C2_severity_normalizer "wheee").2.2.2.2.2.1 (by decide)⟩

/-- Counterexample to claim C1 as stated: the aegisphp summary carries no
by_severity key at all (shown on the serialized summary object), so the
claimed equality with the sum of by_severity values fails for the aegisphp
pipeline, here at the all-empty payloads. -/
theorem C1_counterexample :
    aegisphp_pipeline (.jobj []) (.jobj []) (.jobj [])
        = .ok { summary := { total_findings := 0, by_tool := [] }, findings := [] } ∧
    jLookup (ASummary.toJson { total_findings := 0, by_tool := [] }) "by_severity"
        = none :=
  ⟨rfl, rfl⟩

/-- Claim C1 (amended): for the phalanx pipeline the report satisfies the full
chain len(findings) = total_findings = sum(by_tool values) =
sum(by_severity values) for all payloads; for the aegisphp pipeline, whose
summary has no by_severity table, every successfully produced report satisfies
len(findings) = total_findings = sum(by_tool values). -/
theorem C1_count_invariants :
    (∀ ts p q r,
      ((phalanx_pipeline ts p q r).findings).length
          = (phalanx_pipeline ts p q r).summary.total_findings ∧
      sumVals ((phalanx_pipeline ts p q r).summary.by_tool)
          = ((phalanx_pipeline ts p q r).findings).length ∧
      sumVals ((phalanx_pipeline ts p q r).summary.by_severity)
          = ((phalanx_pipeline ts p q r).findings).length) ∧
    (∀ p q r rep, aegisphp_pipeline p q r = .ok rep →
      rep.findings.length = rep.summary.total_findings ∧
      sumVals rep.summary.by_tool = rep.findings.length) := by
  constructor
  · intro ts p q r
    refine ⟨rfl, ?_, ?_⟩
    · have h := sumVals_foldl_bump
        ((normalize_psalm p ++ normalize_parse q ++ normalize_progpilot r).map
          Finding.tool) []
      rw [List.foldl_map] at h
      simpa [phalanx_pipeline, buildSummary, sumVals] using h
    · have h := sumVals_foldl_bump
        ((normalize_psalm p ++ normalize_parse q ++ normalize_progpilot r).map
          Finding.severity) sevInit
      rw [List.foldl_map] at h
      have hz : sumVals sevInit = 0 := rfl
      rw [hz] at h
      simpa [phalanx_pipeline, buildSummary, sumVals] using h
  · intro p q r rep hrep
    rcases h1 : a_normalize_psalm p with e1 | l1 <;>
      simp only [aegisphp_pipeline, h1, Bind.bind, Except.bind] at hrep
    · cases hrep
    rcases h2 : a_normalize_parse q with e2 | l2 <;> rw [h2] at hrep <;>
      simp only [Except.bind] at hrep
    · cases hrep
    rcases h3 : a_normalize_progpilot r with e3 | l3 <;> rw [h3] at hrep <;>
      simp only [Except.bind] at hrep
    · cases hrep
    simp only [Except.ok.injEq] at hrep
    rw [← hrep]
    refine ⟨rfl, ?_⟩
    have h := sumVals_foldl_bump ((l1 ++ l2 ++ l3).map AFinding.tool) []
    rw [List.foldl_map] at h
    simpa [a_buildSummary, sumVals] using h

/-- Witness for the amended claim C1 at the all-empty payloads. -/
theorem C1_count_invariants_witness :
    ([] : List AFinding).length
        = ({ total_findings := 0, by_tool := [] } : ASummary).total_findings ∧
    sumVals ({ total_findings := 0, by_tool := [] } : ASummary).by_tool
        = ([] : List AFinding).length :=
  C1_count_invariants.2 (.jobj []) (.jobj []) (.jobj [])
    { summary := { total_findings := 0, by_tool := [] }, findings := [] } rfl

/-- Claim C7 (confirmed): report findings are always the psalm block, then the
parse block, then the progpilot block; within each tool's block the findings
follow the raw issue order (each issue that normalizes contributes its finding
in place, stated via filterMap over the issue list). -/
theorem C7_ordering :
    (∀ ts p q r, (phalanx_pipeline ts p q r).findings
        = normalize_psalm p ++ normalize_parse q ++ normalize_progpilot r) ∧
    (∀ issues, (∀ i ∈ issues, ((psalmIssue i).toOption).isSome) →
      normalize_psalm (.jobj [("issues", .jlist issues)])
        = issues.filterMap (fun i => (psalmIssue i).toOption)) ∧
    (∀ issues, (∀ i ∈ issues, ((parseIssue i).toOption).isSome) →
      normalize_parse (.jobj [("findings", .jlist issues)])
        = issues.filterMap (fun i => (parseIssue i).toOption)) ∧
    (∀ issues, (∀ i ∈ issues, ((progIssue i).toOption).isSome) →
      normalize_progpilot (.jobj [("results", .jlist issues)])
        = issues.filterMap (fun i => (progIssue i).toOption)) ∧
    (∀ p q r l1 l2 l3, a_normalize_psalm p = .ok l1 → a_normalize_parse q = .ok l2 →
      a_normalize_progpilot r = .ok l3 →
      ∀ rep, aegisphp_pipeline p q r = .ok rep → rep.findings = l1 ++ l2 ++ l3) := by
  refine ⟨fun ts p q r => rfl, ?_, ?_, ?_, ?_⟩
  · intro issues h
    rw [normalize_psalm_list]
    exact runLoop_all_ok _ _ h
  · intro issues h
    rw [normalize_parse_list]
    exact runLoop_all_ok _ _ h
  · intro issues h
    rw [normalize_progpilot_list]
    exact runLoop_all_ok _ _ h
  · intro p q r l1 l2 l3 h1 h2 h3 rep hrep
    simp only [aegisphp_pipeline, h1, h2, h3, Bind.bind, Except.bind,
      Except.ok.injEq] at hrep
    rw [← hrep]

/-- Witness for claim C7 on a two-issue psalm payload. -/
theorem C7_ordering_witness :
    normalize_psalm (.jobj [("issues", .jlist
        [.jobj [("message", .jstr "a")], .jobj [("message", .jstr "b")]])])
      = ([.jobj [("message", .jstr "a")], .jobj [("message", .jstr "b")]] :
          List JVal).filterMap (fun i => (psalmIssue i).toOption) := by
  refine C7_ordering.2.1 _ ?_
  intro i hi
  simp only [List.mem_cons, List.not_mem_nil, or_false] at hi
  rcases hi with rfl | rfl <;> rfl

/-- Claim C10 (confirmed): in both variants, by_tool holds a key exactly for
the tools with at least one finding, mapped to that tool's finding count; a
tool with zero findings is absent, never pre-populated with a zero count. -/
theorem C10_by_tool_keys :
    (∀ ts p q r t,
      lookupKV ((phalanx_pipeline ts p q r).summary.by_tool) t =
        (if countKey t (((phalanx_pipeline ts p q r).findings).map Finding.tool) = 0
         then none
         else some (countKey t
           (((phalanx_pipeline ts p q r).findings).map Finding.tool)))) ∧
    (∀ fs t,
      lookupKV ((a_buildSummary fs).by_tool) t =
        (if countKey t (fs.map AFinding.tool) = 0 then none
         else some (countKey t (fs.map AFinding.tool)))) := by
  constructor
  · intro ts p q r t
    have h := lookupKV_foldl_bump
      (((phalanx_pipeline ts p q r).findings).map Finding.tool) [] t
    rw [List.foldl_map] at h
    simpa [phalanx_pipeline, buildSummary, lookupKV] using h
  · intro fs t
    have h := lookupKV_foldl_bump (fs.map AFinding.tool) [] t
    rw [List.foldl_map] at h
    simpa [a_buildSummary, lookupKV] using h

theorem phalanxAdapter_no_list (key : String) (step : JVal → Except PyErr Finding)
    (p : JVal)
    (hstr : ∀ s, ((step (JVal.jstr s)).toOption) = none)
    (h : ∀ l, jLookup p key ≠ some (.jlist l)) :
    phalanxAdapter key step p = [] := by
  have hcons : ∀ (x : String) (rest : List JVal),
      runLoop step (JVal.jstr x :: rest) = [] := by
    intro x rest
    have hx := hstr x
    cases hs : step (JVal.jstr x) with
    | ok f => rw [hs] at hx; simp [Except.toOption] at hx
    | error e => simp [runLoop, hs]
  cases p with
  | jnull => rfl
  | jbool b => rfl
  | jint n => rfl
  | jstr s => rfl
  | jlist l => rfl
  | jobj kvs =>
    cases hl : lookupKV kvs key with
    | none =>
      simp [phalanxAdapter, getIssueList, pyGet, hl, Bind.bind, Except.bind,
        pyIter, runLoop]
    | some v =>
      cases v with
      | jlist l => exact absurd (by simp [jLookup, hl]) (h l)
      | jnull =>
        simp [phalanxAdapter, getIssueList, pyGet, hl, Bind.bind, Except.bind, pyIter]
      | jbool b =>
        simp [phalanxAdapter, getIssueList, pyGet, hl, Bind.bind, Except.bind, pyIter]
      | jint n =>
        simp [phalanxAdapter, getIssueList, pyGet, hl, Bind.bind, Except.bind, pyIter]
      | jstr s =>
        cases hs : s.data with
        | nil =>
          simp [phalanxAdapter, getIssueList, pyGet, hl, Bind.bind, Except.bind,
            pyIter, hs, runLoop]
        | cons c cs =>
          simp only [phalanxAdapter, getIssueList, pyGet, hl, Bind.bind,
            Except.bind, pyIter, hs, List.map_cons, Option.getD_some]
          exact hcons _ _
      | jobj kvs2 =>
        cases kvs2 with
        | nil =>
          simp [phalanxAdapter, getIssueList, pyGet, hl, Bind.bind, Except.bind,
            pyIter, runLoop]
        | cons kv rest =>
          simp only [phalanxAdapter, getIssueList, pyGet, hl, Bind.bind,
            Except.bind, pyIter, List.map_cons, Option.getD_some]
          exact hcons _ _

/-- Counterexample to claim C5 as stated: in aegisphp a top-level key bound to
a non-list (here `issues: 5`) raises TypeError and the whole pipeline fails,
producing no Report at all. -/
theorem C5_counterexample :
    aegisphp_pipeline (.jobj [("issues", .jint 5)]) (.jobj []) (.jobj [])
      = .error .typeError := rfl

/-- Claim C5 (amended): in phalanx, a payload with no list under the adapter's
top-level key yields zero findings for that adapter and the pipeline still
reports the other tools' findings, with an all-zero summary when all payloads
are empty; in aegisphp only the absent-key case degrades to zero findings (a
non-list value crashes the pipeline, as the counterexample shows). -/
theorem C5_malformed_payload :
    (∀ p, (∀ l, jLookup p "issues" ≠ some (.jlist l)) → normalize_psalm p = []) ∧
    (∀ q, (∀ l, jLookup q "findings" ≠ some (.jlist l)) → normalize_parse q = []) ∧
    (∀ r, (∀ l, jLookup r "results" ≠ some (.jlist l)) → normalize_progpilot r = []) ∧
    (∀ ts p q r, (∀ l, jLookup p "issues" ≠ some (.jlist l)) →
      (phalanx_pipeline ts p q r).findings
        = normalize_parse q ++ normalize_progpilot r) ∧
    (∀ ts, (phalanx_pipeline ts (.jobj []) (.jobj []) (.jobj [])).findings = [] ∧
      (phalanx_pipeline ts (.jobj []) (.jobj []) (.jobj [])).summary.total_findings
        = 0 ∧
      (phalanx_pipeline ts (.jobj []) (.jobj []) (.jobj [])).summary.by_severity
        = [("low", 0), ("medium", 0), ("high", 0), ("critical", 0)] ∧
      (phalanx_pipeline ts (.jobj []) (.jobj []) (.jobj [])).summary.by_tool = []) ∧
    (∀ kvs, lookupKV kvs "issues" = none →
      a_normalize_psalm (.jobj kvs) = .ok []) := by
  refine ⟨?_, ?_, ?_, ?_, fun ts => ⟨rfl, rfl, rfl, rfl⟩, ?_⟩
  · intro p h
    exact phalanxAdapter_no_list "issues" psalmIssue p (fun s => rfl) h
  · intro q h
    exact phalanxAdapter_no_list "findings" parseIssue q (fun s => rfl) h
  · intro r h
    exact phalanxAdapter_no_list "results" progIssue r (fun s => rfl) h
  · intro ts p q r h
    have hp : normalize_psalm p = [] :=
      phalanxAdapter_no_list "issues" psalmIssue p (fun s => rfl) h
    show normalize_psalm p ++ normalize_parse q ++ normalize_progpilot r = _
    rw [hp]
    simp
  · intro kvs h
    simp [a_normalize_psalm, aegisAdapter, getIssueList, pyGet, h, Bind.bind,
      Except.bind, pyIter, aLoop]

/-- Witness for the amended claim C5 on a payload whose issues key holds an
integer. -/
theorem C5_malformed_payload_witness :
    normalize_psalm (.jobj [("issues", .jint 7)]) = [] :=
  C5_malformed_payload.1 _ (by intro l hl; simp [jLookup, lookupKV] at hl)

/-- Counterexample to claim C4 as stated: in a psalm payload with three
issues of which the second throws, only the first finding is returned (length
1), although the third issue on its own normalizes fine, so it was skipped
along with the failing one rather than processed. -/
theorem C4_counterexample :
    (normalize_psalm (.jobj [("issues", .jlist
      [.jobj [("message", .jstr "a")],
       .jobj [("line_from", .jstr "x")],
       .jobj [("message", .jstr "b")]])])).length = 1 ∧
    ((psalmIssue (.jobj [("message", .jstr "b")])).toOption).isSome = true :=
  ⟨rfl, rfl⟩

/-- Claim C4 (amended): in phalanx the first issue that throws ends the
adapter's loop: the findings built before it are returned, and that issue and
all remaining issues are skipped; in aegisphp the exception propagates and the
adapter returns no findings at all. -/
theorem C4_error_aborts_batch :
    (∀ gs b r, (∀ i ∈ gs, ((psalmIssue i).toOption).isSome) →
      (psalmIssue b).toOption = none →
      normalize_psalm (.jobj [("issues", .jlist (gs ++ b :: r))])
        = gs.filterMap (fun i => (psalmIssue i).toOption)) ∧
    (∀ gs b r, (aPsalmIssue b).toOption = none →
      ((a_normalize_psalm (.jobj [("issues", .jlist (gs ++ b :: r))])).toOption
        = none)) := by
  constructor
  · intro gs b r hg hb
    rw [normalize_psalm_list]
    exact runLoop_append_error _ _ _ _ hg hb
  · intro gs b r hb
    rw [a_normalize_psalm_list]
    exact aLoop_error_of_bad_mem _ _ _ _ hb

/-- Witness for the amended claim C4: one good issue before a bad one. -/
theorem C4_error_aborts_batch_witness :
    normalize_psalm (.jobj [("issues", .jlist
      ([.jobj [("message", .jstr "a")]] ++ .jobj [("line_from", .jstr "x")]
        :: [.jobj [("message", .jstr "b")]]))])
      = ([.jobj [("message", .jstr "a")]] : List JVal).filterMap
          (fun i => (psalmIssue i).toOption) := by
  refine C4_error_aborts_batch.1 _ _ _ ?_ ?_
  · intro i hi
    simp only [List.mem_singleton] at hi
    subst hi
    rfl
  · rfl

/-- Counterexample to claim C6 as stated: a psalm issue whose line_from is the
string abc is not included with line 0; in phalanx int() raises ValueError and
the finding is dropped entirely. -/
theorem C6_counterexample :
    normalize_psalm (.jobj [("issues", .jlist
      [.jobj [("message", .jstr "m"), ("line_from", .jstr "abc")]])]) = [] := rfl

/-- Claim C6 (amended): phalanx obtains line via Python int(): the default 0
applies only when the field is absent, an integer value passes through, and a
non-numeric string raises ValueError so the finding is dropped rather than
included with line 0; aegisphp copies the raw line value through uncoerced. -/
theorem C6_line_coercion :
    (∀ kvs f, lookupKV kvs "line_from" = none →
      psalmIssue (.jobj kvs) = .ok f → f.line = 0) ∧
    (∀ kvs n f, lookupKV kvs "line_from" = some (.jint n) →
      psalmIssue (.jobj kvs) = .ok f → f.line = n) ∧
    (∀ m s, pyIntOfString s = .error .valueError →
      psalmIssue (.jobj [("message", .jstr m), ("line_from", .jstr s)])
        = .error .valueError) ∧
    (∀ kvs v g, lookupKV kvs "line_from" = some v →
      aPsalmIssue (.jobj kvs) = .ok g → g.line = v) := by
  refine ⟨?_, ?_, ?_, ?_⟩
  · intro kvs f h hf
    rw [psalmIssue_jobj] at hf
    rcases hsv : pyLower ((lookupKV kvs "severity").getD (.jstr "")) with e | sev <;>
      rw [hsv] at hf
    · simp [Except.bind] at hf
    · simp only [Except.bind] at hf
      rw [h] at hf
      simp only [Option.getD_none, pyInt, Except.bind, Except.ok.injEq] at hf
      rw [← hf]
  · intro kvs n f h hf
    rw [psalmIssue_jobj] at hf
    rcases hsv : pyLower ((lookupKV kvs "severity").getD (.jstr "")) with e | sev <;>
      rw [hsv] at hf
    · simp [Except.bind] at hf
    · simp only [Except.bind] at hf
      rw [h] at hf
      simp only [Option.getD_some, pyInt, Except.bind, Except.ok.injEq] at hf
      rw [← hf]
  · intro m s hs
    rw [psalmIssue_jobj]
    simp [lookupKV, pyLower, pyInt, hs, Except.bind]
  · intro kvs v g h hg
    rw [aPsalmIssue_jobj] at hg
    rcases hsv : pyLower ((lookupKV kvs "severity").getD (.jstr "")) with e | sev <;>
      rw [hsv] at hg
    · simp [Except.bind] at hg
    · simp only [Except.bind] at hg
      rcases hsn : pyStripV ((lookupKV kvs "snippet").getD (.jstr "")) with e | sn <;>
        rw [hsn] at hg
      · simp [Except.bind] at hg
      · simp only [Except.bind, Except.ok.injEq] at hg
        rw [h] at hg
        simp only [Option.getD_some] at hg
        rw [← hg]

/-- Witness for the amended claim C6 at concrete issues. -/
theorem C6_line_coercion_witness :
    ({ tool := "psalm", title := "", file := "", line := 0, severity := "medium",
       code := "", metadata := [("type", ""), ("link", "")] } : Finding).line = 0 :=
  C6_line_coercion.1 [] _ rfl rfl

set_option maxRecDepth 16384 in
/-- Counterexample to claim C3 as stated: in aegisphp a 501-character message
is copied to the title unbounded (length 501, not 500). -/
theorem C3_counterexample :
    (a_normalize_psalm (.jobj [("issues", .jlist
        [.jobj [("message", .jstr (String.mk (List.replicate 501 'a')))]])])).map
      (fun fs => fs.map AFinding.title)
      = .ok [.jstr (String.mk (List.replicate 501 'a'))] ∧
    (String.mk (List.replicate 501 'a')).length = 501 :=
  ⟨rfl, rfl⟩

/-- Claim C3 (amended): the truncation law holds for the bounded fields of the
phalanx adapters (title to 500, file and code to 1000: the output is a prefix
of the coerced input, of length exactly N when the input is at least N long);
the aegisphp adapters copy the fields through without any bounding. -/
theorem C3_truncation :
    (∀ s n, (n ≤ s.length → (pySlice s n).length = n) ∧
      (pySlice s n).data <+: s.data) ∧
    (∀ s, psalmIssue (.jobj [("message", .jstr s)])
        = .ok { tool := "psalm", title := pySlice s 500, file := "", line := 0,
                severity := "medium", code := "",
                metadata := [("type", ""), ("link", "")] }) ∧
    (∀ s, psalmIssue (.jobj [("file_name", .jstr s)])
        = .ok { tool := "psalm", title := "", file := pySlice s 1000, line := 0,
                severity := "medium", code := "",
                metadata := [("type", ""), ("link", "")] }) ∧
    (∀ s, parseIssue (.jobj [("code", .jstr s)])
        = .ok { tool := "parse", title := "", file := "", line := 0,
                severity := "medium", code := pySlice s 1000,
                metadata := [("rule", "")] }) ∧
    (∀ s, a_normalize_psalm (.jobj [("issues", .jlist
        [.jobj [("message", .jstr s)]])])
        = .ok [{ tool := "psalm", title := .jstr s, file := .jnull,
                 line := .jnull, severity := "medium", code := .jstr "",
                 metadata := [("type", .jnull), ("link", .jnull)] }]) := by
  refine ⟨?_, fun s => rfl, fun s => rfl, fun s => rfl, fun s => rfl⟩
  intro s n
  constructor
  · intro hn
    have hn2 : n ≤ s.data.length := hn
    show (s.data.take n).length = n
    rw [List.length_take]
    omega
  · exact List.take_prefix n s.data

/-- Witness for the amended claim C3 at a concrete string and bound. -/
theorem C3_truncation_witness :
    (pySlice "hello" 3).length = 3 ∧ (pySlice "hello" 3).data <+: "hello".data :=
  ⟨(C3_truncation.1 "hello" 3).1 (by decide), (C3_truncation.1 "hello" 3).2⟩

/-- Claim C8 (confirmed): with no severity key, every adapter normalizes to
medium, via the tool defaults: psalm uses the empty string, parse uses
warning, progpilot uses medium, and all three defaults normalize to medium. -/
theorem C8_severity_defaults :
    (∀ kvs f, lookupKV kvs "severity" = none →
      ((psalmIssue (.jobj kvs) = .ok f → f.severity = "medium") ∧
       (parseIssue (.jobj kvs) = .ok f → f.severity = "medium") ∧
       (progIssue (.jobj kvs) = .ok f → f.severity = "medium"))) ∧
    (∀ kvs g, lookupKV kvs "severity" = none →
      ((aPsalmIssue (.jobj kvs) = .ok g → g.severity = "medium") ∧
       (aParseIssue (.jobj kvs) = .ok g → g.severity = "medium") ∧
       (aProgIssue (.jobj kvs) = .ok g → g.severity = "medium"))) ∧
    normalize_severity "" = "medium" ∧
    normalize_severity "warning" = "medium" ∧
    normalize_severity "medium" = "medium" := by
  refine ⟨?_, ?_, rfl, rfl, rfl⟩
  · intro kvs f h
    refine ⟨?_, ?_, ?_⟩
    · intro hf
      rw [psalmIssue_jobj, h] at hf
      simp only [Option.getD_none, pyLower, Except.bind] at hf
      rcases hli : pyInt ((lookupKV kvs "line_from").getD (.jint 0)) with e | n <;>
        rw [hli] at hf
      · simp [Except.bind] at hf
      · simp only [Except.bind, Except.ok.injEq] at hf
        rw [← hf]
        rfl
    · intro hf
      rw [parseIssue_jobj, h] at hf
      simp only [Option.getD_none, pyLower, Except.bind] at hf
      rcases hli : pyInt ((lookupKV kvs "line").getD (.jint 0)) with e | n <;>
        rw [hli] at hf
      · simp [Except.bind] at hf
      · simp only [Except.bind, Except.ok.injEq] at hf
        rw [← hf]
        rfl
    · intro hf
      rw [progIssue_jobj, h] at hf
      simp only [Option.getD_none, pyLower, Except.bind] at hf
      rcases hli : pyInt ((lookupKV kvs "line").getD (.jint 0)) with e | n <;>
        rw [hli] at hf
      · simp [Except.bind] at hf
      · simp only [Except.bind, Except.ok.injEq] at hf
        rw [← hf]
        rfl
  · intro kvs g h
    refine ⟨?_, ?_, ?_⟩
    · intro hg
      rw [aPsalmIssue_jobj, h] at hg
      simp only [Option.getD_none, pyLower, Except.bind] at hg
      rcases hsn : pyStripV ((lookupKV kvs "snippet").getD (.jstr "")) with e | sn <;>
        rw [hsn] at hg
      · simp [Except.bind] at hg
      · simp only [Except.bind, Except.ok.injEq] at hg
        rw [← hg]
        rfl
    · intro hg
      rw [aParseIssue_jobj, h] at hg
      simp only [Option.getD_none, pyLower, Except.map, Except.ok.injEq] at hg
      rw [← hg]
      rfl
    · intro hg
      rw [aProgIssue_jobj, h] at hg
      simp only [Option.getD_none, pyLower, Except.map, Except.ok.injEq] at hg
      rw [← hg]
      rfl

/-- Witness for claim C8 on an issue with no severity key. -/
theorem C8_severity_defaults_witness :
    ({ tool := "parse", title := "", file := "", line := 0, severity := "medium",
       code := "", metadata := [("rule", "")] } : Finding).severity = "medium" :=
  (C8_severity_defaults.1 [] _ rfl).2.1 rfl

/-- Counterexample to claim C9 as stated: the phalanx parse adapter does not
strip whitespace from the code field (the output keeps the raw spaces). -/
theorem C9_counterexample :
    (normalize_parse (.jobj [("findings", .jlist
        [.jobj [("code", .jstr " x ")]])])).map Finding.code = [" x "] ∧
    pyStrip " x " = "x" :=
  ⟨rfl, rfl⟩

/-- Claim C9 (amended): a missing code/snippet field yields the empty string;
whitespace stripping applies only in the psalm adapters (on the snippet
field); truncation to 1000 only in the phalanx adapters; the parse adapters
copy the field unstripped (phalanx truncating, aegisphp raw). -/
theorem C9_code_field :
    (∀ s, (psalmIssue (.jobj [("snippet", .jstr s)])).map Finding.code
        = .ok (pySlice (pyStrip s) 1000)) ∧
    (∀ kvs f, lookupKV kvs "snippet" = none →
      psalmIssue (.jobj kvs) = .ok f → f.code = "") ∧
    (∀ s, (parseIssue (.jobj [("code", .jstr s)])).map Finding.code
        = .ok (pySlice s 1000)) ∧
    (∀ kvs f, lookupKV kvs "code" = none →
      parseIssue (.jobj kvs) = .ok f → f.code = "") ∧
    (∀ s, (aPsalmIssue (.jobj [("snippet", .jstr s)])).map AFinding.code
        = .ok (.jstr (pyStrip s))) ∧
    (∀ s, (aParseIssue (.jobj [("code", .jstr s)])).map AFinding.code
        = .ok (.jstr s)) := by
  refine ⟨fun s => rfl, ?_, fun s => rfl, ?_, fun s => rfl, fun s => rfl⟩
  · intro kvs f h hf
    rw [psalmIssue_jobj, h] at hf
    rcases hsv : pyLower ((lookupKV kvs "severity").getD (.jstr "")) with e | sev <;>
      rw [hsv] at hf
    · simp [Except.bind] at hf
    · simp only [Except.bind] at hf
      rcases hli : pyInt ((lookupKV kvs "line_from").getD (.jint 0)) with e | n <;>
        rw [hli] at hf
      · simp [Except.bind] at hf
      · simp only [Except.bind, Except.ok.injEq] at hf
        rw [← hf]
        rfl
  · intro kvs f h hf
    rw [parseIssue_jobj, h] at hf
    rcases hsv : pyLower ((lookupKV kvs "severity").getD (.jstr "warning")) with e | sev <;>
      rw [hsv] at hf
    · simp [Except.bind] at hf
    · simp only [Except.bind] at hf
      rcases hli : pyInt ((lookupKV kvs "line").getD (.jint 0)) with e | n <;>
        rw [hli] at hf
      · simp [Except.bind] at hf
      · simp only [Except.bind, Except.ok.injEq] at hf
        rw [← hf]
        rfl

/-- Witness for the amended claim C9 on an issue with no snippet key. -/
theorem C9_code_field_witness :
    ({ tool := "psalm", title := "", file := "", line := 0, severity := "medium",
       code := "", metadata := [("type", ""), ("link", "")] } : Finding).code = "" :=
  C9_code_field.2.1 [] _ rfl rfl
